import Mathlib

/-!
Shallow embedding of the scrape-to-row pipeline in `src/app/nlp_pipeline.py`.

Strings are modelled as Lean `String` (lists of characters); Python floats are
modelled as exact rationals `ℚ`; `None`-able Python strings are `Option String`.
The external collaborators (the HTTP fetch, BeautifulSoup's DOM queries, the
VADER lexicon model, the filesystem) are abstracted: a fetched page is a
`Response` record carrying the texts each fixed CSS selector would return, and
the VADER `polarity_scores` call is an oracle parameter `sia : String → PolarityScores`.
Everything downstream of those inputs is translated statement-for-statement
from the Python source.
-/

namespace NlpPipeline

/-- Python truthiness of an optional string: `None` and `""` are falsy. -/
def pyTruthy : Option String → Bool
  | none => false
  | some t => !(t = "")

/-- ASCII whitespace recognized by Python `str.split()` / the regex class `\s`. -/
def isSpace (c : Char) : Bool :=
  c = ' ' || c = '\t' || c = '\n' || c = '\r' || c = '\x0b' || c = '\x0c'

/-- Python `str.split()` (no argument): split on runs of whitespace, dropping
empty pieces. The accumulator holds the current word reversed. -/
def splitWsAux : List Char → List Char → List (List Char)
  | [], acc => if acc.isEmpty then [] else [acc.reverse]
  | c :: cs, acc =>
    if isSpace c then
      if acc.isEmpty then splitWsAux cs [] else acc.reverse :: splitWsAux cs []
    else
      splitWsAux cs (c :: acc)

/-- Join a list of words with single spaces (Python `" ".join(words)`). -/
def joinSpace : List (List Char) → List Char
  | [] => []
  | [w] => w
  | w :: ws => w ++ ' ' :: joinSpace ws

/-- `ProductScraper._clean_text`: `" ".join(text.split()).strip()` — collapse
whitespace runs to single spaces and trim the ends. -/
def clean_text (s : String) : String :=
  ⟨joinSpace (splitWsAux s.data [])⟩

/-- Python `str.lower()`, modelled character-wise (ASCII-faithful). -/
def lowerStr (s : String) : String :=
  ⟨s.data.map Char.toLower⟩

/-- Python slice `s[:n]` on a string. -/
def takeStr (n : Nat) (s : String) : String :=
  ⟨s.data.take n⟩

/-- Does `n` occur as a prefix of `h`? (helper for substring containment). -/
def prefixOfL : List Char → List Char → Bool
  | [], _ => true
  | _ :: _, [] => false
  | n :: ns, h :: hs => n = h && prefixOfL ns hs

/-- Python `needle in hay` on strings: contiguous-substring containment. -/
def containsSub (needle : List Char) : List Char → Bool
  | [] => needle.isEmpty
  | c :: hs => prefixOfL needle (c :: hs) || containsSub needle hs

/-- String-level wrapper for Python `needle in hay`. -/
def containsStr (needle hay : String) : Bool :=
  containsSub needle.data hay.data

/-- FeatureMentionDetector.keywords — the fixed keyword taxonomy, with
`dict.get(feature, [])`'s empty default for unknown features. -/
def keywordsFor (feature : String) : List String :=
  if feature = "delivery" then ["delivery", "shipping", "packaging", "arrival", "dispatch"]
  else if feature = "quality" then ["quality", "durable", "sturdy", "defect", "material"]
  else if feature = "value" then ["value", "worth", "expensive", "cheap", "money"]
  else []

/-- FeatureMentionDetector.detect_feature: 0 for falsy text, else 1 iff some
keyword of the feature occurs in the lower-cased text. -/
def detect_feature (text : Option String) (feature : String) : Nat :=
  if pyTruthy text then
    let text_lower := lowerStr (text.getD "")
    if (keywordsFor feature).any (fun kw => containsStr kw text_lower) then 1 else 0
  else 0

/-- Value of a list of ASCII digits read in base 10. -/
def digitsToNat (ds : List Char) : Nat :=
  ds.foldl (fun a c => 10 * a + (c.toNat - 48)) 0

/-- Rational value of `intPart.fracPart` (Python `float` on the matched token,
modelled exactly). -/
def numOf (intPart fracPart : List Char) : ℚ :=
  (digitsToNat intPart : ℚ) + (digitsToNat fracPart : ℚ) / 10 ^ fracPart.length

/-- Leftmost match of the regex `(\d+\.?\d*)` (`re.search`): skip to the first
digit, greedily take digits, then an optional dot followed by greedy digits.
Returns the integer and fractional digit runs. -/
def findNum : List Char → Option (List Char × List Char)
  | [] => none
  | c :: cs =>
    if c.isDigit then
      let p := (c :: cs).span Char.isDigit
      match p.2 with
      | '.' :: rest2 => some (p.1, (rest2.span Char.isDigit).1)
      | _ => some (p.1, [])
    else
      findNum cs

/-- Characters removed by `re.sub(r'[₹$,\s]', '', text)` before price parsing. -/
def isStrippedPriceChar (c : Char) : Bool :=
  c = '₹' || c = '$' || c = ',' || isSpace c

/-- Price-candidate parsing: strip currency symbols, commas and whitespace,
then take the first numeric token, as a rational. -/
def priceFromText (t : String) : Option ℚ :=
  (findNum (t.data.filter (fun c => !isStrippedPriceChar c))).map
    (fun p => numOf p.1 p.2)

/-- Inner loop of `ProductScraper._extract_price` over the elements matched by
one selector: return the first parsed candidate lying in the open sanity range
`(100, 1000000)`; out-of-range or unparseable candidates are skipped. -/
def priceElemLoop : List String → Option ℚ
  | [] => none
  | t :: rest =>
    match priceFromText t with
    | some price => if 100 < price ∧ price < 1000000 then some price else priceElemLoop rest
    | none => priceElemLoop rest

/-- Outer loop of `_extract_price` over the ordered selector list. -/
def priceSelLoop : List (List String) → Option ℚ
  | [] => none
  | sel :: rest =>
    match priceElemLoop sel with
    | some price => some price
    | none => priceSelLoop rest

/-- One review container element: the texts BeautifulSoup's `select_one` would
return for the two review-text sub-selectors (in their fixed order) and for the
star-rating selector, `none` when the selector matches nothing. -/
structure ReviewElem where
  reviewBody : Option String
  reviewTextAlt : Option String
  ratingText : Option String
  deriving DecidableEq

/-- The review-text sub-selector loop (`['[data-hook="review-body"]', '.review-text']`):
first matching element wins; its text is whitespace-normalized. -/
def reviewTextOf (e : ReviewElem) : Option String :=
  match e.reviewBody with
  | some t => some (clean_text t)
  | none =>
    match e.reviewTextAlt with
    | some t => some (clean_text t)
    | none => none

/-- Star-rating extraction for one review element: first numeric token of the
rating element's text, defaulting to `3.0` when the element is absent or holds
no numeric token. -/
def ratingOf (e : ReviewElem) : ℚ :=
  match e.ratingText with
  | none => 3
  | some rt =>
    match findNum rt.data with
    | some p => numOf p.1 p.2
    | none => 3

/-- Per-element body of `_extract_reviews_and_ratings`: skip the element when
no text sub-selector matched or the normalized text is falsy or shorter than
20 characters; otherwise keep `(text, rating)`. -/
def extractReviewFromElem (e : ReviewElem) : Option (String × ℚ) :=
  match reviewTextOf e with
  | none => none
  | some t => if t = "" ∨ t.length < 20 then none else some (t, ratingOf e)

/-- Container-selector loop of `_extract_reviews_and_ratings`: process each
selector's elements in order, appending the surviving `(text, rating)` pairs to
the shared accumulator, and break out as soon as the accumulator is non-empty
after a selector. -/
def reviewLoopAcc : List (String × ℚ) → List (List ReviewElem) → List (String × ℚ)
  | acc, [] => acc
  | acc, c :: rest =>
    let acc2 := acc ++ c.filterMap extractReviewFromElem
    if acc2.isEmpty then reviewLoopAcc acc2 rest else acc2

/-- A fetched page, as the pipeline observes it: the texts each fixed CSS
selector of the scraper would produce. `fullText` is `soup.get_text()`;
the three `Option String` fields are the product-name selectors; the three
`List String` fields are the element texts per price selector; the three
`List ReviewElem` fields are the elements per review container selector. -/
structure Soup where
  fullText : String
  productTitle : Option String
  h1Title : Option String
  spanProductTitle : Option String
  priceWhole : List String
  priceOffscreen : List String
  priceblockOurprice : List String
  dataHookReview : List ReviewElem
  dotReview : List ReviewElem
  aSectionReview : List ReviewElem
  deriving DecidableEq

/-- The ordered price-selector candidates (`span.a-price-whole`,
`span.a-price span.a-offscreen`, `#priceblock_ourprice`). -/
def priceCandidates (soup : Soup) : List (List String) :=
  [soup.priceWhole, soup.priceOffscreen, soup.priceblockOurprice]

/-- `ProductScraper._extract_price`: first in-range candidate across the
ordered selectors, `0.0` when none is found. -/
def extract_price (soup : Soup) : ℚ :=
  (priceSelLoop (priceCandidates soup)).getD 0

/-- The ordered review container selectors (`[data-hook="review"]`, `.review`,
`.a-section.review`). -/
def reviewContainers (soup : Soup) : List (List ReviewElem) :=
  [soup.dataHookReview, soup.dotReview, soup.aSectionReview]

/-- `ProductScraper._extract_reviews_and_ratings`, with the parallel
`(reviews, ratings)` lists kept as a single list of pairs (the Python appends
to both in the same iteration). -/
def extract_reviews_and_ratings (soup : Soup) : List (String × ℚ) :=
  reviewLoopAcc [] (reviewContainers soup)

/-- Name-selector loop of `_extract_product_name` over
`['#productTitle', 'h1#title', 'span#productTitle']`. -/
def nameLoop : List (Option String) → String
  | [] => "Unknown Product"
  | none :: rest => nameLoop rest
  | some t :: rest =>
    let text := clean_text t
    if text ≠ "" ∧ text.length > 5 then text else nameLoop rest

/-- `ProductScraper._extract_product_name`. -/
def extract_product_name (soup : Soup) : String :=
  nameLoop [soup.productTitle, soup.h1Title, soup.spanProductTitle]

/-- The dict returned by `ProductScraper.scrape_product` on success. -/
structure ProductData where
  product_name : String
  price : ℚ
  reviews : List String
  ratings : List ℚ
  deriving DecidableEq

/-- An HTTP response as the scraper observes it. -/
structure Response where
  status_code : Nat
  soup : Soup
  deriving DecidableEq

/-- `ProductScraper.scrape_product`: non-200 status fails; then the bot-block
check on the lower-cased page text (`'captcha' in page_text or 'robot' in
page_text[:500]`) fails before any field extraction; then the fields are
extracted and the result is `None` when no review survived. -/
def scrape_product (resp : Response) : Option ProductData :=
  if resp.status_code ≠ 200 then none
  else if containsStr "captcha" (lowerStr resp.soup.fullText)
       || containsStr "robot" (takeStr 500 (lowerStr resp.soup.fullText)) then none
  else if !(extract_reviews_and_ratings resp.soup).isEmpty then
    some { product_name := extract_product_name resp.soup,
           price := extract_price resp.soup,
           reviews := (extract_reviews_and_ratings resp.soup).map Prod.fst,
           ratings := (extract_reviews_and_ratings resp.soup).map Prod.snd }
  else none

/-- The four component scores VADER's `polarity_scores` returns for a text. -/
structure PolarityScores where
  compound : ℚ
  pos : ℚ
  neg : ℚ
  neu : ℚ
  deriving DecidableEq

/-- The dict returned by `SentimentAnalyzer.predict`. -/
structure SentimentResult where
  sentiment : String
  compound_score : ℚ
  pos_score : ℚ
  neg_score : ℚ
  neu_score : ℚ
  deriving DecidableEq

/-- `SentimentAnalyzer.predict`, parametrized by the VADER oracle `sia`:
falsy text yields the fixed neutral default; otherwise the label is thresholded
on the compound score with inclusive boundaries at `±0.05`. -/
def predict (sia : String → PolarityScores) (text : Option String) : SentimentResult :=
  if pyTruthy text then
    let scores := sia (text.getD "")
    let compound_score := scores.compound
    let sentiment_label :=
      if compound_score ≥ 5 / 100 then "Positive"
      else if compound_score ≤ -(5 / 100) then "Negative"
      else "Neutral"
    { sentiment := sentiment_label, compound_score := compound_score,
      pos_score := scores.pos, neg_score := scores.neg, neu_score := scores.neu }
  else
    { sentiment := "Neutral", compound_score := 0, pos_score := 0,
      neg_score := 0, neu_score := 1 }

/-- Python `int(q)`: truncation toward zero. -/
def pyInt (q : ℚ) : ℤ :=
  q.num.tdiv q.den

/-- Round a rational to the nearest integer, ties to even (Python's `round`
on exact halves, modelled over ℚ). -/
def roundHalfEven (q : ℚ) : ℤ :=
  if q - ⌊q⌋ < 1 / 2 then ⌊q⌋
  else if 1 / 2 < q - ⌊q⌋ then ⌊q⌋ + 1
  else if ⌊q⌋ % 2 = 0 then ⌊q⌋ else ⌊q⌋ + 1

/-- Python `round(q, nd)`, modelled exactly over ℚ. -/
def pyRound (nd : Nat) (q : ℚ) : ℚ :=
  (roundHalfEven (q * 10 ^ nd) : ℚ) / 10 ^ nd

/-- Zero-pad the decimal representation of `n` to width `w`
(Python `f"{n:0wd}"`; longer representations are kept whole). -/
def padZeros (w : Nat) (n : Nat) : String :=
  let s := toString n
  ⟨List.replicate (w - s.length) '0'⟩ ++ s

/-- One record of the 22-column output table built by
`generate_csv_from_url`. -/
structure OutputRow where
  review_id : String
  product_id : String
  product_name : String
  review_text : String
  rating : ℤ
  review_date : String
  reviewer_name : String
  verified_purchase : Nat
  helpful_votes : Nat
  total_votes : Nat
  sentiment_label : String
  compound_score : ℚ
  positive_score : ℚ
  negative_score : ℚ
  neutral_score : ℚ
  product_price : ℚ
  original_price : ℚ
  discount_percentage : ℤ
  platform : String
  delivery_mentioned : Nat
  quality_mentioned : Nat
  value_mentioned : Nat
  deriving DecidableEq

/-- Body of the row-building loop of `generate_csv_from_url` for the review at
0-based position `idx` (the review counter is `idx + 1`). The non-deterministic
engagement counters are injected as `votes : Nat → Nat × Nat`
(`helpful_votes`, `total_votes` drawn for position `idx`), and the run date as
`today`. -/
def mkRow (pd : ProductData) (sia : String → PolarityScores) (votes : Nat → Nat × Nat)
    (today : String) (idx : Nat) (review : String) (rating : ℚ) : OutputRow :=
  let review_counter := idx + 1
  let sentiment_data := predict sia (some review)
  let original_price := if pd.price > 0 then pd.price * (12 / 10) else 0
  let discount_percentage :=
    if original_price > 0 then pyInt ((original_price - pd.price) / original_price * 100) else 0
  { review_id := "R" ++ padZeros 6 review_counter
    product_id := "B0" ++ padZeros 8 review_counter
    product_name := pd.product_name
    review_text := review
    rating := pyInt rating
    review_date := today
    reviewer_name := "Reviewer_" ++ toString review_counter
    verified_purchase := 1
    helpful_votes := (votes idx).1
    total_votes := (votes idx).2
    sentiment_label := sentiment_data.sentiment
    compound_score := pyRound 4 sentiment_data.compound_score
    positive_score := pyRound 4 sentiment_data.pos_score
    negative_score := pyRound 4 sentiment_data.neg_score
    neutral_score := pyRound 4 sentiment_data.neu_score
    product_price := pyRound 2 pd.price
    original_price := pyRound 2 original_price
    discount_percentage := discount_percentage
    platform := "Amazon"
    delivery_mentioned := detect_feature (some review) "delivery"
    quality_mentioned := detect_feature (some review) "quality"
    value_mentioned := detect_feature (some review) "value" }

/-- The `for idx, (review, rating) in enumerate(zip(reviews, ratings))` loop,
with the running 0-based index made explicit. -/
def buildRowsAux (pd : ProductData) (sia : String → PolarityScores)
    (votes : Nat → Nat × Nat) (today : String) :
    Nat → List (String × ℚ) → List OutputRow
  | _, [] => []
  | idx, (review, rating) :: rest =>
    mkRow pd sia votes today idx review rating :: buildRowsAux pd sia votes today (idx + 1) rest

/-- The full row list built by `generate_csv_from_url` from a scraped product. -/
def buildRows (pd : ProductData) (sia : String → PolarityScores)
    (votes : Nat → Nat × Nat) (today : String) : List OutputRow :=
  buildRowsAux pd sia votes today 0 (pd.reviews.zip pd.ratings)

/-- `generate_csv_from_url`, up to serialization: scrape, bail out (`None`)
when scraping failed or produced no reviews, otherwise assemble the rows that
would be written to the CSV. -/
def generate_csv_from_url (resp : Response) (sia : String → PolarityScores)
    (votes : Nat → Nat × Nat) (today : String) : Option (List OutputRow) :=
  match scrape_product resp with
  | none => none
  | some pd =>
    if pd.reviews.isEmpty then none
    else some (buildRows pd sia votes today)

/-- The accumulator loop of `generate_csv_for_products`: per-URL failures are
swallowed and only successful results are appended. -/
def genLoop (sia : String → PolarityScores) (votes : Nat → Nat × Nat) (today : String)
    (acc : List (List OutputRow)) : List Response → List (List OutputRow)
  | [] => acc
  | resp :: rest =>
    match generate_csv_from_url resp sia votes today with
    | some rows => genLoop sia votes today (acc ++ [rows]) rest
    | none => genLoop sia votes today acc rest

/-- `generate_csv_for_products` (batch mode), at the row-list level: the list
of successfully generated outputs, in input order. -/
def generate_csv_for_products (resps : List Response) (sia : String → PolarityScores)
    (votes : Nat → Nat × Nat) (today : String) : List (List OutputRow) :=
  genLoop sia votes today [] resps

/-- Comparison definition following the spec's wording for the review loop:
the per-container extraction result of the first container selector that
yields at least one usable review, `[]` when none does — never a union
across selectors. -/
def specFirstNonempty : List (List (String × ℚ)) → List (String × ℚ)
  | [] => []
  | l :: rest => if l.isEmpty then specFirstNonempty rest else l

/-! ## Concrete inputs for witnesses and scenario checks -/

/-- A constant VADER oracle for concrete runs. -/
def siaZero : String → PolarityScores :=
  fun _ => { compound := 0, pos := 0, neg := 0, neu := 1 }

/-- A fixed engagement-counter source for concrete runs. -/
def votesZero : Nat → Nat × Nat := fun _ => (0, 50)

/-- A 5-character review element (dropped by the length filter). -/
def elemShort : ReviewElem :=
  { reviewBody := some "short", reviewTextAlt := none, ratingText := none }

/-- A 25-character review element (kept). -/
def elem25 : ReviewElem :=
  { reviewBody := some "exactly twenty-five chars", reviewTextAlt := none, ratingText := none }

/-- A 40-character review element (kept). -/
def elem40 : ReviewElem :=
  { reviewBody := some "this review text has exactly forty chars",
    reviewTextAlt := none, ratingText := none }

/-- A usable review element whose star-rating text parses to 10. -/
def elemBigRating : ReviewElem :=
  { reviewBody := some "this review is long enough to survive",
    reviewTextAlt := none, ratingText := some "10 stars" }

/-- A normal product page with reviews of lengths 5, 25 and 40. -/
def soupDemo : Soup :=
  { fullText := "a perfectly normal product page",
    productTitle := some "Demo Product Title", h1Title := none, spanProductTitle := none,
    priceWhole := [], priceOffscreen := [], priceblockOurprice := [],
    dataHookReview := [elemShort, elem25, elem40], dotReview := [], aSectionReview := [] }

/-- A valid response around `soupDemo`. -/
def respDemo : Response := { status_code := 200, soup := soupDemo }

/-- A challenge page: its text contains "CAPTCHA" although review-like content
is present. -/
def soupBlocked : Soup :=
  { fullText := "Please solve the CAPTCHA to continue",
    productTitle := some "Demo Product Title", h1Title := none, spanProductTitle := none,
    priceWhole := [], priceOffscreen := [], priceblockOurprice := [],
    dataHookReview := [elem40], dotReview := [], aSectionReview := [] }

/-- A 200 response whose page is the challenge page. -/
def respBlocked : Response := { status_code := 200, soup := soupBlocked }

/-- A page whose only numeric price candidate is the star rating "4.5". -/
def soupStar : Soup :=
  { fullText := "a product page with a star rating only",
    productTitle := none, h1Title := none, spanProductTitle := none,
    priceWhole := ["4.5"], priceOffscreen := [], priceblockOurprice := [],
    dataHookReview := [elem40], dotReview := [], aSectionReview := [] }

/-- A page holding one usable review whose rating parses to 10. -/
def soupBigRating : Soup :=
  { fullText := "a perfectly normal product page",
    productTitle := some "Demo Product Title", h1Title := none, spanProductTitle := none,
    priceWhole := [], priceOffscreen := [], priceblockOurprice := [],
    dataHookReview := [elemBigRating], dotReview := [], aSectionReview := [] }

/-- A 200 response around `soupBigRating`. -/
def respBigRating : Response := { status_code := 200, soup := soupBigRating }

/-- A concrete scraped product for row-assembly witnesses. -/
def pdDemo : ProductData :=
  { product_name := "Demo Product Title", price := 500,
    reviews := ["this is a fine product overall indeed"], ratings := [4] }

/-- The product record that scraping `soupDemo` produces. -/
def pdFromDemo : ProductData :=
  { product_name := "Demo Product Title", price := extract_price soupDemo,
    reviews := ["exactly twenty-five chars", "this review text has exactly forty chars"],
    ratings := [ratingOf elem25, ratingOf elem40] }

/-! ## Helper lemmas -/

theorem prefixOfL_iff (n h : List Char) :
    prefixOfL n h = true ↔ ∃ s, h = n ++ s := by
  induction n generalizing h with
  | nil => simp [prefixOfL]
  | cons c cs ih =>
    cases h with
    | nil => simp [prefixOfL]
    | cons d ds =>
      simp only [prefixOfL, Bool.and_eq_true, decide_eq_true_eq, ih]
      constructor
      · rintro ⟨rfl, s, rfl⟩; exact ⟨s, rfl⟩
      · rintro ⟨s, hs⟩
        injection hs with h1 h2
        exact ⟨h1.symm, s, h2⟩

theorem containsSub_iff (n h : List Char) :
    containsSub n h = true ↔ ∃ p s, h = p ++ n ++ s := by
  induction h with
  | nil =>
    simp only [containsSub, List.isEmpty_iff]
    constructor
    · rintro rfl; exact ⟨[], [], rfl⟩
    · rintro ⟨p, s, hs⟩
      rcases List.append_eq_nil.mp (List.append_eq_nil.mp hs.symm).1 with ⟨_, h2⟩
      exact h2
  | cons c cs ih =>
    simp only [containsSub, Bool.or_eq_true, ih, prefixOfL_iff]
    constructor
    · rintro (⟨s, hs⟩ | ⟨p, s, hs⟩)
      · exact ⟨[], s, by simp [hs]⟩
      · exact ⟨c :: p, s, by simp [hs]⟩
    · rintro ⟨p, s, hs⟩
      cases p with
      | nil => exact Or.inl ⟨s, by simpa using hs⟩
      | cons q qs =>
        injection hs with h1 h2
        exact Or.inr ⟨qs, s, h2⟩

theorem keywordsFor_ne_empty {f kw : String} (h : kw ∈ keywordsFor f) : kw ≠ "" := by
  unfold keywordsFor at h
  split_ifs at h
  · simp only [List.mem_cons, List.not_mem_nil, or_false] at h
    rcases h with rfl | rfl | rfl | rfl | rfl <;> decide
  · simp only [List.mem_cons, List.not_mem_nil, or_false] at h
    rcases h with rfl | rfl | rfl | rfl | rfl <;> decide
  · simp only [List.mem_cons, List.not_mem_nil, or_false] at h
    rcases h with rfl | rfl | rfl | rfl | rfl <;> decide
  · exact absurd h (List.not_mem_nil kw)

theorem string_eq_empty_of_data {s : String} (h : s.data = []) : s = "" := by
  obtain ⟨d⟩ := s
  cases h
  rfl

theorem detect_feature_eq_one_iff (t f : String) :
    detect_feature (some t) f = 1 ↔
      ∃ kw ∈ keywordsFor f, containsSub kw.data (lowerStr t).data = true := by
  by_cases ht : t = ""
  · subst ht
    constructor
    · intro h
      have h0 : detect_feature (some "") f = 0 := rfl
      rw [h0] at h
      exact absurd h (by norm_num)
    · rintro ⟨kw, hkw, hsub⟩
      exfalso
      rcases (containsSub_iff _ _).mp hsub with ⟨p, s, hps⟩
      have hdata : kw.data = [] := by
        have h0 : (lowerStr "").data = [] := rfl
        rw [h0] at hps
        exact (List.append_eq_nil.mp (List.append_eq_nil.mp hps.symm).1).2
      exact keywordsFor_ne_empty hkw (string_eq_empty_of_data hdata)
  · have hp : pyTruthy (some t) = true := by simp [pyTruthy, ht]
    simp only [detect_feature, hp, if_true, Option.getD_some, containsStr]
    by_cases hany : (keywordsFor f).any (fun kw => containsSub kw.data (lowerStr t).data) = true
    · rw [if_pos hany]
      simp only [List.any_eq_true] at hany
      exact ⟨fun _ => hany, fun _ => rfl⟩
    · rw [if_neg hany]
      simp only [List.any_eq_true] at hany
      exact ⟨fun h => absurd h (by norm_num), fun h => absurd h hany⟩

/-! ## Claim theorems -/

/-- C9: for every text and every feature in the taxonomy, `detect_feature`
returns 1 exactly when one of that feature's fixed keywords occurs as a
substring of the lower-cased text; it returns 0 for missing or empty text;
and matching is case-insensitive, e.g. on "FAST DELIVERY". -/
theorem detect_feature_iff_spec :
    (∀ t : String,
      ((detect_feature (some t) "delivery" = 1) ↔
        ∃ kw ∈ (["delivery", "shipping", "packaging", "arrival", "dispatch"] : List String),
          ∃ p s, (lowerStr t).data = p ++ kw.data ++ s) ∧
      ((detect_feature (some t) "quality" = 1) ↔
        ∃ kw ∈ (["quality", "durable", "sturdy", "defect", "material"] : List String),
          ∃ p s, (lowerStr t).data = p ++ kw.data ++ s) ∧
      ((detect_feature (some t) "value" = 1) ↔
        ∃ kw ∈ (["value", "worth", "expensive", "cheap", "money"] : List String),
          ∃ p s, (lowerStr t).data = p ++ kw.data ++ s)) ∧
    (∀ f : String, detect_feature none f = 0 ∧ detect_feature (some "") f = 0) ∧
    detect_feature (some "FAST DELIVERY") "delivery" = 1 := by
  refine ⟨fun t => ⟨?_, ?_, ?_⟩, fun f => ⟨rfl, rfl⟩, by decide⟩ <;>
    (rw [detect_feature_eq_one_iff]; simp only [containsSub_iff]; rfl)

/-- C10: for a non-empty text and a feature name outside the taxonomy,
`detect_feature` is total and returns 0 (the unknown feature maps to the empty
keyword list) instead of raising. -/
theorem detect_feature_unknown_total (t : String) (f : String)
    (ht : t ≠ "") (hf : f ∉ (["delivery", "quality", "value"] : List String)) :
    detect_feature (some t) f = 0 := by
  have hkw : keywordsFor f = [] := by
    simp only [List.mem_cons, List.not_mem_nil, or_false, not_or] at hf
    unfold keywordsFor
    rw [if_neg hf.1, if_neg hf.2.1, if_neg hf.2.2]
  simp [detect_feature, hkw]

/-- Witness for C10 at the concrete input `("nice color", "color")`. -/
theorem detect_feature_unknown_total_witness :
    ("nice color" : String) ≠ "" ∧
    ("color" : String) ∉ (["delivery", "quality", "value"] : List String) ∧
    detect_feature (some "nice color") "color" = 0 :=
  ⟨by decide, by decide,
    detect_feature_unknown_total "nice color" "color" (by decide) (by decide)⟩

theorem predict_of_ne (sia : String → PolarityScores) (t : String) (ht : t ≠ "") :
    predict sia (some t) =
      { sentiment :=
          if (sia t).compound ≥ 5 / 100 then "Positive"
          else if (sia t).compound ≤ -(5 / 100) then "Negative" else "Neutral",
        compound_score := (sia t).compound, pos_score := (sia t).pos,
        neg_score := (sia t).neg, neu_score := (sia t).neu } := by
  simp [predict, pyTruthy, ht]

/-- C2: the sentiment label is Positive exactly when the compound score is
`≥ 0.05` (inclusive), Negative exactly when it is `≤ -0.05` (inclusive), and
Neutral otherwise; missing or empty text yields the fixed neutral default
without error. -/
theorem predict_threshold_spec :
    (∀ (sia : String → PolarityScores) (t : String), t ≠ "" →
      (((predict sia (some t)).sentiment = "Positive" ↔ (sia t).compound ≥ 5 / 100) ∧
       ((predict sia (some t)).sentiment = "Negative" ↔ (sia t).compound ≤ -(5 / 100)) ∧
       ((predict sia (some t)).sentiment = "Neutral" ↔
          (-(5 / 100) < (sia t).compound ∧ (sia t).compound < 5 / 100)))) ∧
    (∀ sia : String → PolarityScores,
      predict sia none =
        { sentiment := "Neutral", compound_score := 0, pos_score := 0,
          neg_score := 0, neu_score := 1 } ∧
      predict sia (some "") =
        { sentiment := "Neutral", compound_score := 0, pos_score := 0,
          neg_score := 0, neu_score := 1 }) := by
  refine ⟨fun sia t ht => ?_, fun sia => ⟨rfl, rfl⟩⟩
  rw [predict_of_ne sia t ht]
  dsimp only
  constructor
  · split_ifs with h1 h2 <;> simp_all <;> linarith
  constructor
  · split_ifs with h1 h2 <;> simp_all <;> linarith
  · split_ifs with h1 h2 <;> simp_all <;> first
      | (constructor <;> linarith)
      | (rintro ⟨hl, hr⟩; linarith)

/-- Witness for C2 at a concrete analyzer and text. -/
theorem predict_threshold_spec_witness :
    ("great" : String) ≠ "" ∧
    ((predict (fun _ => { compound := 1, pos := 1, neg := 0, neu := 0 })
        (some "great")).sentiment = "Positive" ↔
      ((fun _ => ({ compound := 1, pos := 1, neg := 0, neu := 0 } : PolarityScores))
        "great").compound ≥ 5 / 100) :=
  ⟨by decide,
    (predict_threshold_spec.1 (fun _ => { compound := 1, pos := 1, neg := 0, neu := 0 })
      "great" (by decide)).1⟩

/-- C4: when the lower-cased page text contains the substring "captcha", or
its first 500 characters contain "robot", scraping fails and returns no
product record, regardless of the page's other content. -/
theorem scrape_blocked_on_captcha (resp : Response)
    (h : (∃ p s, (lowerStr resp.soup.fullText).data = p ++ "captcha".data ++ s) ∨
         (∃ p s, (takeStr 500 (lowerStr resp.soup.fullText)).data = p ++ "robot".data ++ s)) :
    scrape_product resp = none := by
  have hb : (containsStr "captcha" (lowerStr resp.soup.fullText)
      || containsStr "robot" (takeStr 500 (lowerStr resp.soup.fullText))) = true := by
    rcases h with ⟨p, s, hps⟩ | ⟨p, s, hps⟩
    · exact Bool.or_eq_true_iff.mpr (Or.inl ((containsSub_iff _ _).mpr ⟨p, s, hps⟩))
    · exact Bool.or_eq_true_iff.mpr (Or.inr ((containsSub_iff _ _).mpr ⟨p, s, hps⟩))
  unfold scrape_product
  split_ifs with h1 h2 h3 <;> first
    | rfl
    | exact absurd hb (by simp_all)

/-- Witness for C4 at a concrete blocked page. -/
theorem scrape_blocked_on_captcha_witness :
    (∃ p s, (lowerStr respBlocked.soup.fullText).data = p ++ "captcha".data ++ s) ∧
    scrape_product respBlocked = none := by
  have hx : (lowerStr respBlocked.soup.fullText).data =
      "please solve the ".data ++ "captcha".data ++ " to continue".data := by decide
  exact ⟨⟨_, _, hx⟩, scrape_blocked_on_captcha respBlocked (Or.inl ⟨_, _, hx⟩)⟩

theorem reviewLoopAcc_eq (ls : List (List ReviewElem)) :
    reviewLoopAcc [] ls =
      specFirstNonempty (ls.map (fun c => c.filterMap extractReviewFromElem)) := by
  induction ls with
  | nil => rfl
  | cons c rest ih =>
    by_cases h : (c.filterMap extractReviewFromElem).isEmpty
    · have h' : c.filterMap extractReviewFromElem = [] := List.isEmpty_iff.mp h
      simp only [reviewLoopAcc, List.map_cons, specFirstNonempty, List.nil_append, h',
        List.isEmpty_nil, if_true, ih]
    · simp only [reviewLoopAcc, List.map_cons, specFirstNonempty, List.nil_append, h,
        if_false, Bool.false_eq_true]

theorem extractReviewFromElem_length {e : ReviewElem} {p : String × ℚ}
    (h : extractReviewFromElem e = some p) : 20 ≤ p.1.length := by
  unfold extractReviewFromElem at h
  split at h
  · exact absurd h (by simp)
  · split_ifs at h with hc
    cases h
    push_neg at hc
    exact hc.2

theorem specFirstNonempty_mem {ls : List (List (String × ℚ))} {p : String × ℚ}
    (h : p ∈ specFirstNonempty ls) : ∃ l ∈ ls, p ∈ l := by
  induction ls with
  | nil => cases h
  | cons l rest ih =>
    unfold specFirstNonempty at h
    split_ifs at h with hl
    · rcases ih h with ⟨l2, hl2, hp⟩
      exact ⟨l2, List.mem_cons_of_mem _ hl2, hp⟩
    · exact ⟨l, List.mem_cons_self _ _, h⟩

/-- C5: review extraction takes the first container selector yielding at least
one usable review (short-circuit, never a union across selectors), every kept
review's normalized text has at least 20 characters, and on a page with reviews
of lengths 5, 25 and 40 the pipeline emits exactly 2 rows. -/
theorem reviews_short_circuit_and_filter :
    (∀ soup : Soup,
      extract_reviews_and_ratings soup =
        specFirstNonempty ((reviewContainers soup).map
          (fun c => c.filterMap extractReviewFromElem))) ∧
    (∀ (soup : Soup) (p : String × ℚ),
      p ∈ extract_reviews_and_ratings soup → 20 ≤ p.1.length) ∧
    (generate_csv_from_url respDemo siaZero votesZero "2026-10-12").map List.length
      = some 2 := by
  have key : ∀ soup : Soup,
      extract_reviews_and_ratings soup =
        specFirstNonempty ((reviewContainers soup).map
          (fun c => c.filterMap extractReviewFromElem)) :=
    fun _ => reviewLoopAcc_eq _
  refine ⟨key, fun soup p hp => ?_, by decide⟩
  rw [key] at hp
  rcases specFirstNonempty_mem hp with ⟨l, hl, hpl⟩
  rcases List.mem_map.mp hl with ⟨c, _, rfl⟩
  rcases List.mem_filterMap.mp hpl with ⟨e, _, he⟩
  exact extractReviewFromElem_length he

/-- Witness for C5's filter clause at a concrete surviving review. -/
theorem reviews_short_circuit_and_filter_witness :
    ("exactly twenty-five chars", ratingOf elem25) ∈ extract_reviews_and_ratings soupDemo ∧
    20 ≤ ("exactly twenty-five chars" : String).length := by
  have hmem : ("exactly twenty-five chars", ratingOf elem25) ∈
      extract_reviews_and_ratings soupDemo := by
    show ("exactly twenty-five chars", ratingOf elem25) ∈
      [("exactly twenty-five chars", ratingOf elem25),
       ("this review text has exactly forty chars", ratingOf elem40)]
    exact List.mem_cons_self _ _
  exact ⟨hmem, reviews_short_circuit_and_filter.2.1 soupDemo _ hmem⟩

theorem priceElemLoop_range {l : List String} {q : ℚ} (h : priceElemLoop l = some q) :
    100 < q ∧ q < 1000000 ∧ ∃ t ∈ l, priceFromText t = some q := by
  induction l with
  | nil => cases h
  | cons t rest ih =>
    unfold priceElemLoop at h
    split at h
    · rename_i p hp
      split_ifs at h with hr
      · cases h
        exact ⟨hr.1, hr.2, t, List.mem_cons_self _ _, hp⟩
      · rcases ih h with ⟨h1, h2, t2, ht2, hpt⟩
        exact ⟨h1, h2, t2, List.mem_cons_of_mem _ ht2, hpt⟩
    · rcases ih h with ⟨h1, h2, t2, ht2, hpt⟩
      exact ⟨h1, h2, t2, List.mem_cons_of_mem _ ht2, hpt⟩

theorem priceSelLoop_range {ls : List (List String)} {q : ℚ}
    (h : priceSelLoop ls = some q) :
    100 < q ∧ q < 1000000 ∧ ∃ sel ∈ ls, ∃ t ∈ sel, priceFromText t = some q := by
  induction ls with
  | nil => cases h
  | cons sel rest ih =>
    unfold priceSelLoop at h
    split at h
    · rename_i p hp
      cases h
      rcases priceElemLoop_range hp with ⟨h1, h2, t, ht, hpt⟩
      exact ⟨h1, h2, sel, List.mem_cons_self _ _, t, ht, hpt⟩
    · rcases ih h with ⟨h1, h2, sel2, hsel2, hex⟩
      exact ⟨h1, h2, sel2, List.mem_cons_of_mem _ hsel2, hex⟩

/-- C6: the extracted price is either `0.0` (no candidate fell in range) or a
parsed candidate lying strictly inside the open range (100, 1000000); and a
page whose only numeric candidate is "4.5" yields price 0. -/
theorem price_range_spec :
    (∀ soup : Soup,
      extract_price soup = 0 ∨
      (100 < extract_price soup ∧ extract_price soup < 1000000 ∧
        ∃ sel ∈ priceCandidates soup, ∃ t ∈ sel,
          priceFromText t = some (extract_price soup))) ∧
    extract_price soupStar = 0 := by
  constructor
  · intro soup
    unfold extract_price
    cases h : priceSelLoop (priceCandidates soup) with
    | none => left; rfl
    | some q =>
      right
      rcases priceSelLoop_range h with ⟨h1, h2, hex⟩
      simpa using ⟨h1, h2, hex⟩
  · have h45 : priceFromText "4.5" = some (numOf ['4'] ['5']) := rfl
    have hval : ¬(100 < numOf ['4'] ['5'] ∧ numOf ['4'] ['5'] < 1000000) := by
      unfold numOf
      rw [show digitsToNat ['4'] = 4 from by decide,
        show digitsToNat ['5'] = 5 from by decide,
        show (['5'] : List Char).length = 1 from rfl]
      norm_num
    have helem : priceElemLoop ["4.5"] = none := by
      have hstep : priceElemLoop ["4.5"] =
          if 100 < numOf ['4'] ['5'] ∧ numOf ['4'] ['5'] < 1000000
          then some (numOf ['4'] ['5']) else priceElemLoop [] := rfl
      rw [hstep, if_neg hval]
      rfl
    show (priceSelLoop (priceCandidates soupStar)).getD 0 = 0
    have hcand : priceCandidates soupStar = [["4.5"], [], []] := rfl
    rw [hcand]
    unfold priceSelLoop
    rw [helem]
    rfl

theorem scrape_product_some {resp : Response} {pd : ProductData}
    (h : scrape_product resp = some pd) :
    pd.reviews = (extract_reviews_and_ratings resp.soup).map Prod.fst ∧
    pd.ratings = (extract_reviews_and_ratings resp.soup).map Prod.snd := by
  unfold scrape_product at h
  split_ifs at h
  cases h
  exact ⟨rfl, rfl⟩

theorem buildRowsAux_map_text (pd : ProductData) (sia : String → PolarityScores)
    (votes : Nat → Nat × Nat) (today : String) (idx : Nat) (l : List (String × ℚ)) :
    (buildRowsAux pd sia votes today idx l).map OutputRow.review_text = l.map Prod.fst := by
  induction l generalizing idx with
  | nil => rfl
  | cons p rest ih =>
    cases p with
    | mk review rating => simp only [buildRowsAux, List.map_cons, ih]; rfl

theorem buildRowsAux_map_rid (pd : ProductData) (sia : String → PolarityScores)
    (votes : Nat → Nat × Nat) (today : String) (idx : Nat) (l : List (String × ℚ)) :
    (buildRowsAux pd sia votes today idx l).map OutputRow.review_id =
      (List.range l.length).map (fun i => "R" ++ padZeros 6 (idx + i + 1)) := by
  induction l generalizing idx with
  | nil => rfl
  | cons p rest ih =>
    cases p with
    | mk review rating =>
      simp only [buildRowsAux, List.map_cons, List.length_cons, List.range_succ_eq_map,
        ih, List.map_map]
      rw [List.cons.injEq]
      constructor
      · show "R" ++ padZeros 6 (idx + 1) = "R" ++ padZeros 6 (idx + 0 + 1)
        rw [Nat.add_zero]
      · apply List.map_congr_left
        intro i _
        show "R" ++ padZeros 6 (idx + 1 + i + 1) = "R" ++ padZeros 6 (idx + (i + 1) + 1)
        have harg : idx + 1 + i + 1 = idx + (i + 1) + 1 := by omega
        rw [harg]

theorem buildRowsAux_map_pid (pd : ProductData) (sia : String → PolarityScores)
    (votes : Nat → Nat × Nat) (today : String) (idx : Nat) (l : List (String × ℚ)) :
    (buildRowsAux pd sia votes today idx l).map OutputRow.product_id =
      (List.range l.length).map (fun i => "B0" ++ padZeros 8 (idx + i + 1)) := by
  induction l generalizing idx with
  | nil => rfl
  | cons p rest ih =>
    cases p with
    | mk review rating =>
      simp only [buildRowsAux, List.map_cons, List.length_cons, List.range_succ_eq_map,
        ih, List.map_map]
      rw [List.cons.injEq]
      constructor
      · show "B0" ++ padZeros 8 (idx + 1) = "B0" ++ padZeros 8 (idx + 0 + 1)
        rw [Nat.add_zero]
      · apply List.map_congr_left
        intro i _
        show "B0" ++ padZeros 8 (idx + 1 + i + 1) = "B0" ++ padZeros 8 (idx + (i + 1) + 1)
        have harg : idx + 1 + i + 1 = idx + (i + 1) + 1 := by omega
        rw [harg]

theorem zip_of_maps (l : List (String × ℚ)) :
    (l.map Prod.fst).zip (l.map Prod.snd) = l := by
  rw [List.zip_map']
  simp

/-- C1: a successful run yields exactly one output row per review surviving
the length filter, in original input order with no review dropped or
duplicated, with review ids `R` + 6-digit zero-padded counter starting at 1
and product ids `B0` + the same counter zero-padded to 8 digits. -/
theorem pipeline_row_count_and_ids (resp : Response) (sia : String → PolarityScores)
    (votes : Nat → Nat × Nat) (today : String) (rows : List OutputRow)
    (h : generate_csv_from_url resp sia votes today = some rows) :
    rows.length = (extract_reviews_and_ratings resp.soup).length ∧
    rows.map OutputRow.review_text = (extract_reviews_and_ratings resp.soup).map Prod.fst ∧
    rows.map OutputRow.review_id =
      (List.range (extract_reviews_and_ratings resp.soup).length).map
        (fun i => "R" ++ padZeros 6 (i + 1)) ∧
    rows.map OutputRow.product_id =
      (List.range (extract_reviews_and_ratings resp.soup).length).map
        (fun i => "B0" ++ padZeros 8 (i + 1)) := by
  unfold generate_csv_from_url at h
  split at h
  · cases h
  · rename_i pd hpd
    split_ifs at h
    cases h
    obtain ⟨hrev, hrat⟩ := scrape_product_some hpd
    have hzip : pd.reviews.zip pd.ratings = extract_reviews_and_ratings resp.soup := by
      rw [hrev, hrat, zip_of_maps]
    have hb : buildRows pd sia votes today =
        buildRowsAux pd sia votes today 0 (extract_reviews_and_ratings resp.soup) := by
      unfold buildRows
      rw [hzip]
    refine ⟨?_, ?_, ?_, ?_⟩
    · rw [hb]
      have : (buildRowsAux pd sia votes today 0
          (extract_reviews_and_ratings resp.soup)).map OutputRow.review_text =
          (extract_reviews_and_ratings resp.soup).map Prod.fst :=
        buildRowsAux_map_text ..
      calc (buildRowsAux pd sia votes today 0
              (extract_reviews_and_ratings resp.soup)).length
          = ((buildRowsAux pd sia votes today 0
              (extract_reviews_and_ratings resp.soup)).map OutputRow.review_text).length := by
            rw [List.length_map]
        _ = (extract_reviews_and_ratings resp.soup).length := by rw [this, List.length_map]
    · rw [hb, buildRowsAux_map_text]
    · rw [hb, buildRowsAux_map_rid]
      apply List.map_congr_left
      intro i _
      rw [Nat.zero_add]
    · rw [hb, buildRowsAux_map_pid]
      apply List.map_congr_left
      intro i _
      rw [Nat.zero_add]

/-- Witness for C1 on a concrete two-review page. -/
theorem pipeline_row_count_and_ids_witness :
    generate_csv_from_url respDemo siaZero votesZero "2026-10-12" =
      some (buildRows pdFromDemo siaZero votesZero "2026-10-12") ∧
    (buildRows pdFromDemo siaZero votesZero "2026-10-12").map OutputRow.review_id =
      ["R000001", "R000002"] := by
  have h : generate_csv_from_url respDemo siaZero votesZero "2026-10-12" =
      some (buildRows pdFromDemo siaZero votesZero "2026-10-12") := rfl
  refine ⟨h, ?_⟩
  have hmain := pipeline_row_count_and_ids respDemo siaZero votesZero "2026-10-12" _ h
  rw [hmain.2.2.1]
  decide

theorem genLoop_eq (sia : String → PolarityScores) (votes : Nat → Nat × Nat)
    (today : String) (l : List Response) (acc : List (List OutputRow)) :
    genLoop sia votes today acc l =
      acc ++ l.filterMap (fun resp => generate_csv_from_url resp sia votes today) := by
  induction l generalizing acc with
  | nil => simp [genLoop]
  | cons r rest ih =>
    unfold genLoop
    split
    · rename_i rows hg
      rw [ih]
      simp [List.filterMap_cons, hg]
    · rename_i hg
      rw [ih]
      simp [List.filterMap_cons, hg]

/-- C3 counterexample: on a batch of two URLs where the second is blocked,
the batch result has one entry, not one entry per input URL. -/
theorem runMany_pairs_cex :
    (generate_csv_for_products [respDemo, respBlocked] siaZero votesZero
        "2026-10-12").length = 1 ∧
    ([respDemo, respBlocked] : List Response).length = 2 := by
  constructor
  · show (genLoop siaZero votesZero "2026-10-12" [] [respDemo, respBlocked]).length = 1
    rw [genLoop_eq]
    have h1 : (generate_csv_from_url respDemo siaZero votesZero "2026-10-12").isSome
        = true := by decide
    have h2 : generate_csv_from_url respBlocked siaZero votesZero "2026-10-12"
        = none := by decide
    simp [List.filterMap_cons, h2, Option.isSome_iff_exists.mp h1]
    rcases Option.isSome_iff_exists.mp h1 with ⟨rows, hrows⟩
    simp [hrows]
  · rfl

/-- C3 (amended): batch processing returns only the successful per-URL
results, one entry per successful URL in input order — failed URLs contribute
no entry — and one URL's failure does not abort its siblings, which are
processed independently. -/
theorem runMany_success_only :
    (∀ (resps : List Response) (sia : String → PolarityScores)
        (votes : Nat → Nat × Nat) (today : String),
      generate_csv_for_products resps sia votes today =
        resps.filterMap (fun resp => generate_csv_from_url resp sia votes today)) ∧
    (∀ (sia : String → PolarityScores) (votes : Nat → Nat × Nat) (today : String)
        (pre post : List Response) (bad : Response),
      generate_csv_from_url bad sia votes today = none →
      generate_csv_for_products (pre ++ bad :: post) sia votes today =
        generate_csv_for_products (pre ++ post) sia votes today) := by
  have key : ∀ (resps : List Response) (sia : String → PolarityScores)
      (votes : Nat → Nat × Nat) (today : String),
      generate_csv_for_products resps sia votes today =
        resps.filterMap (fun resp => generate_csv_from_url resp sia votes today) := by
    intro resps sia votes today
    unfold generate_csv_for_products
    rw [genLoop_eq]
    rfl
  refine ⟨key, fun sia votes today pre post bad hbad => ?_⟩
  rw [key, key]
  simp [List.filterMap_append, List.filterMap_cons, hbad]

/-- Witness for the amended C3: the blocked URL contributes nothing and its
sibling is unaffected. -/
theorem runMany_success_only_witness :
    generate_csv_from_url respBlocked siaZero votesZero "2026-10-12" = none ∧
    generate_csv_for_products [respDemo, respBlocked] siaZero votesZero "2026-10-12" =
      generate_csv_for_products [respDemo] siaZero votesZero "2026-10-12" := by
  have hbad : generate_csv_from_url respBlocked siaZero votesZero "2026-10-12" = none := by
    decide
  exact ⟨hbad,
    runMany_success_only.2 siaZero votesZero "2026-10-12" [respDemo] [] respBlocked hbad⟩

theorem ratingOf_nonneg (e : ReviewElem) : 0 ≤ ratingOf e := by
  unfold ratingOf
  split
  · norm_num
  · split
    · unfold numOf
      positivity
    · norm_num

theorem extractReviewFromElem_rating {e : ReviewElem} {t : String} {r : ℚ}
    (h : extractReviewFromElem e = some (t, r)) : r = ratingOf e := by
  unfold extractReviewFromElem at h
  split at h
  · exact absurd h (by simp)
  · split_ifs at h
    simp only [Option.some.injEq, Prod.mk.injEq] at h
    exact h.2.symm

theorem ratingOf_of_none {e : ReviewElem} (h : e.ratingText = none) :
    ratingOf e = 3 := by
  unfold ratingOf
  rw [h]

theorem ratingOf_of_nomatch {e : ReviewElem} {rt : String}
    (h1 : e.ratingText = some rt) (h2 : findNum rt.data = none) : ratingOf e = 3 := by
  have hstep : ratingOf e =
      match findNum rt.data with
      | some p => numOf p.1 p.2
      | none => 3 := by
    unfold ratingOf
    rw [h1]
  rw [hstep, h2]

theorem buildRowsAux_map_rating (pd : ProductData) (sia : String → PolarityScores)
    (votes : Nat → Nat × Nat) (today : String) (idx : Nat) (l : List (String × ℚ)) :
    (buildRowsAux pd sia votes today idx l).map OutputRow.rating =
      l.map (fun p => pyInt p.2) := by
  induction l generalizing idx with
  | nil => rfl
  | cons p rest ih =>
    cases p with
    | mk review rating => simp only [buildRowsAux, List.map_cons, ih]; rfl

theorem pyInt_eq_floor (q : ℚ) (h : 0 ≤ q) : pyInt q = ⌊q⌋ := by
  rw [Rat.floor_def]
  obtain ⟨m, hm⟩ := Int.eq_ofNat_of_zero_le (Rat.num_nonneg.mpr h)
  unfold pyInt
  rw [hm]
  rfl

/-- C7 counterexample: on a review element whose rating text is "10 stars",
the extracted review's star rating is 10 — outside [0, 5] — and its row rating
value `int(10.0)` is 10, outside 0-5. -/
theorem rating_range_cex :
    extractReviewFromElem elemBigRating =
      some ("this review is long enough to survive", ratingOf elemBigRating) ∧
    ratingOf elemBigRating = 10 ∧ ¬(ratingOf elemBigRating ≤ 5) ∧
    pyInt (ratingOf elemBigRating) = 10 ∧ ¬(pyInt (ratingOf elemBigRating) ≤ 5) := by
  have hr : ratingOf elemBigRating = 10 := by
    have hstep : ratingOf elemBigRating =
        match findNum "10 stars".data with
        | some p => numOf p.1 p.2
        | none => 3 := rfl
    rw [hstep, show findNum "10 stars".data = some (['1', '0'], []) from by decide]
    show numOf ['1', '0'] [] = 10
    unfold numOf
    rw [show digitsToNat ['1', '0'] = 10 from by decide,
      show digitsToNat [] = 0 from rfl]
    norm_num
  refine ⟨rfl, hr, ?_, ?_, ?_⟩
  · rw [hr]; norm_num
  · rw [hr, pyInt_eq_floor 10 (by norm_num)]
    rw [show ((10 : ℚ)) = ((10 : ℤ) : ℚ) / ((1 : ℕ) : ℚ) by norm_num,
      Rat.floor_intCast_div_natCast]
    decide
  · rw [hr, pyInt_eq_floor 10 (by norm_num)]
    rw [show ((10 : ℚ)) = ((10 : ℤ) : ℚ) / ((1 : ℕ) : ℚ) by norm_num,
      Rat.floor_intCast_div_natCast]
    decide

/-- C7 (amended): the extracted star rating is the first numeric token of the
rating element's text — a nonnegative decimal, not clamped to [0, 5] —
defaulting to 3.0 exactly when the element is absent or its text holds no
numeric token; each output row's rating column is the float rating truncated
toward zero, which is the floor for these nonnegative ratings, again without
clamping to 0-5. -/
theorem rating_spec_amended :
    (∀ (e : ReviewElem) (t : String) (r : ℚ),
      extractReviewFromElem e = some (t, r) →
      0 ≤ r ∧ r = ratingOf e ∧ (e.ratingText = none → r = 3) ∧
      (∀ rt, e.ratingText = some rt → findNum rt.data = none → r = 3)) ∧
    (∀ (pd : ProductData) (sia : String → PolarityScores)
        (votes : Nat → Nat × Nat) (today : String),
      (buildRows pd sia votes today).map OutputRow.rating =
        (pd.reviews.zip pd.ratings).map (fun p => pyInt p.2)) ∧
    (∀ q : ℚ, 0 ≤ q → pyInt q = ⌊q⌋) := by
  refine ⟨fun e t r h => ?_, fun pd sia votes today => buildRowsAux_map_rating .., pyInt_eq_floor⟩
  have hre : r = ratingOf e := extractReviewFromElem_rating h
  subst hre
  exact ⟨ratingOf_nonneg e, rfl, fun hn => ratingOf_of_none hn,
    fun rt h1 h2 => ratingOf_of_nomatch h1 h2⟩

/-- Witness for the amended C7 at the concrete oversized-rating element. -/
theorem rating_spec_amended_witness :
    extractReviewFromElem elemBigRating =
      some ("this review is long enough to survive", ratingOf elemBigRating) ∧
    0 ≤ ratingOf elemBigRating ∧
    pyInt 4 = ⌊(4 : ℚ)⌋ := by
  have h : extractReviewFromElem elemBigRating =
      some ("this review is long enough to survive", ratingOf elemBigRating) := rfl
  exact ⟨h, (rating_spec_amended.1 elemBigRating _ _ h).1,
    rating_spec_amended.2.2 4 (by decide)⟩

theorem mem_buildRowsAux {pd : ProductData} {sia : String → PolarityScores}
    {votes : Nat → Nat × Nat} {today : String} {row : OutputRow} :
    ∀ {idx : Nat} {l : List (String × ℚ)},
      row ∈ buildRowsAux pd sia votes today idx l →
      ∃ i review rating, row = mkRow pd sia votes today i review rating := by
  intro idx l
  induction l generalizing idx with
  | nil => intro h; cases h
  | cons p rest ih =>
    cases p with
    | mk review rating =>
      intro h
      rcases List.mem_cons.mp h with hh | hh
      · exact ⟨idx, review, rating, hh⟩
      · exact ih hh

theorem mkRow_discount_eq (pd : ProductData) (sia : String → PolarityScores)
    (votes : Nat → Nat × Nat) (today : String) (idx : Nat) (review : String) (rating : ℚ) :
    (mkRow pd sia votes today idx review rating).discount_percentage =
      if 0 < pd.price then (16 : ℤ) else 0 := by
  show (if (if pd.price > 0 then pd.price * (12 / 10) else 0) > 0
      then pyInt (((if pd.price > 0 then pd.price * (12 / 10) else 0) - pd.price) /
        (if pd.price > 0 then pd.price * (12 / 10) else 0) * 100)
      else 0) = if 0 < pd.price then (16 : ℤ) else 0
  by_cases hp : 0 < pd.price
  · have hp' : pd.price > 0 := hp
    have hop : pd.price * (12 / 10) > 0 := mul_pos hp (by norm_num)
    rw [if_pos hp']
    rw [if_pos hop, if_pos hp]
    have harith : (pd.price * (12 / 10) - pd.price) / (pd.price * (12 / 10)) * 100
        = 50 / 3 := by
      have hne : pd.price ≠ 0 := ne_of_gt hp
      field_simp
      ring
    rw [harith, pyInt_eq_floor _ (by norm_num),
      show ((50 : ℚ) / 3) = ((50 : ℤ) : ℚ) / ((3 : ℕ) : ℚ) by norm_num,
      Rat.floor_intCast_div_natCast]
    decide
  · have hp' : ¬(pd.price > 0) := hp
    have h00 : ¬((0 : ℚ) > 0) := lt_irrefl 0
    rw [if_neg hp']
    rw [if_neg h00, if_neg hp]

theorem floor_discount_formula {p : ℚ} (hp : 0 < p) :
    (⌊(p * (12 / 10) - p) / (p * (12 / 10)) * 100⌋ : ℤ) = 16 := by
  have harith : (p * (12 / 10) - p) / (p * (12 / 10)) * 100 = 50 / 3 := by
    have hne : p ≠ 0 := ne_of_gt hp
    field_simp
    ring
  rw [harith, show ((50 : ℚ) / 3) = ((50 : ℤ) : ℚ) / ((3 : ℕ) : ℚ) by norm_num,
    Rat.floor_intCast_div_natCast]
  decide

/-- C8: each row's original price column stores `price * 1.2` when the price
is positive and 0 otherwise (rounded to 2 decimals for the column), the
discount percentage equals `⌊(originalPrice - price) / originalPrice * 100⌋`
when the original price is positive and 0 otherwise — which is the constant 16,
the floored ~16.67% synthetic markup, whenever the price is positive — and it
is identical across all rows of the run. -/
theorem discount_math_spec (pd : ProductData) (sia : String → PolarityScores)
    (votes : Nat → Nat × Nat) (today : String) (row : OutputRow)
    (hrow : row ∈ buildRows pd sia votes today) :
    row.original_price = pyRound 2 (if 0 < pd.price then pd.price * (12 / 10) else 0) ∧
    row.discount_percentage =
      (if 0 < pd.price
       then ⌊(pd.price * (12 / 10) - pd.price) / (pd.price * (12 / 10)) * 100⌋ else 0) ∧
    (0 < pd.price → row.discount_percentage = 16) ∧
    (∀ row2 ∈ buildRows pd sia votes today,
      row2.discount_percentage = row.discount_percentage) := by
  rcases mem_buildRowsAux hrow with ⟨i, review, rating, rfl⟩
  refine ⟨rfl, ?_, ?_, ?_⟩
  · rw [mkRow_discount_eq]
    by_cases hp : 0 < pd.price
    · rw [if_pos hp, if_pos hp, floor_discount_formula hp]
    · rw [if_neg hp, if_neg hp]
  · intro hp
    rw [mkRow_discount_eq, if_pos hp]
  · intro row2 hrow2
    rcases mem_buildRowsAux hrow2 with ⟨i2, review2, rating2, rfl⟩
    rw [mkRow_discount_eq, mkRow_discount_eq]

/-- Witness for C8 at a concrete one-review product with price 500. -/
theorem discount_math_spec_witness :
    mkRow pdDemo siaZero votesZero "2026-10-12" 0
        "this is a fine product overall indeed" 4 ∈
      buildRows pdDemo siaZero votesZero "2026-10-12" ∧
    (0 : ℚ) < pdDemo.price ∧
    (mkRow pdDemo siaZero votesZero "2026-10-12" 0
        "this is a fine product overall indeed" 4).discount_percentage = 16 := by
  have hmem : mkRow pdDemo siaZero votesZero "2026-10-12" 0
      "this is a fine product overall indeed" 4 ∈
      buildRows pdDemo siaZero votesZero "2026-10-12" := by
    show mkRow pdDemo siaZero votesZero "2026-10-12" 0
        "this is a fine product overall indeed" 4 ∈
      [mkRow pdDemo siaZero votesZero "2026-10-12" 0
        "this is a fine product overall indeed" 4]
    exact List.mem_cons_self _ _
  have hp : (0 : ℚ) < pdDemo.price := by decide
  exact ⟨hmem, hp,
    (discount_math_spec pdDemo siaZero votesZero "2026-10-12" _ hmem).2.2.1 hp⟩

end NlpPipeline
